import Mathlib

/-
A shallow embedding of the go-asana client library (package asana,
src/asana/asana.go), covering the data model and the request executor:
per-path default field selection, query-string construction, body and
header construction, response-envelope decoding and error translation.
Machine integers do not occur on the verified paths; JSON numbers are
modelled as Int (every number in the repository's wire examples is a
small integer).
-/

namespace Asana

/-- JSON values as decoded by encoding/json.  Objects keep their field
order; `lookup` takes the first binding (the repository's wire examples
contain no duplicate keys). -/
inductive Json where
| null : Json
| bool (b : Bool) : Json
| num (n : Int) : Json
| str (s : String) : Json
| arr (elems : List Json) : Json
| obj (fields : List (String × Json)) : Json

/-- Escaping of one character inside a JSON string, as json.Marshal does
for the characters that occur in this development (quote and backslash;
Go additionally escapes control and HTML characters, which no value in
the repository's examples contains). -/
def escapeJsonChar (c : Char) : String :=
  if c = Char.ofNat 34 then "\\\""
  else if c = Char.ofNat 92 then "\\\\"
  else String.singleton c

/-- Rendering of a JSON string literal. -/
def renderJsonString (s : String) : String :=
  "\"" ++ String.join (s.toList.map escapeJsonChar) ++ "\""

mutual

/-- Compact serialization of a JSON value, as json.Marshal produces for
the request bodies built by the executor (struct fields appear in
declaration order, which is the field order of the object). -/
def Json.render : Json → String
| Json.null => "null"
| Json.bool true => "true"
| Json.bool false => "false"
| Json.num n => toString n
| Json.str s => renderJsonString s
| Json.arr es => "[" ++ Json.renderArr es ++ "]"
| Json.obj fs => "\x7b" ++ Json.renderObj fs ++ "\x7d"

/-- Comma-separated rendering of array elements. -/
def Json.renderArr : List Json → String
| [] => ""
| [e] => Json.render e
| e :: es => Json.render e ++ "," ++ Json.renderArr es

/-- Comma-separated rendering of object fields. -/
def Json.renderObj : List (String × Json) → String
| [] => ""
| [(k, v)] => renderJsonString k ++ ":" ++ Json.render v
| (k, v) :: fs => renderJsonString k ++ ":" ++ Json.render v ++ "," ++ Json.renderObj fs

end

mutual

/-- Size of a JSON value; used as fuel for the recursive task decoder. -/
def Json.size : Json → Nat
| Json.arr es => Json.sizeArr es + 1
| Json.obj fs => Json.sizeObj fs + 1
| _ => 1

/-- Summed size of array elements. -/
def Json.sizeArr : List Json → Nat
| [] => 0
| e :: es => Json.size e + Json.sizeArr es

/-- Summed size of object fields. -/
def Json.sizeObj : List (String × Json) → Nat
| [] => 0
| (_, v) :: fs => Json.size v + Json.sizeObj fs

end

/-- Field lookup in a decoded JSON object. -/
def jsonLookup (fs : List (String × Json)) (k : String) : Option Json :=
  match fs with
  | [] => none
  | (k2, v) :: rest => if k2 = k then some v else jsonLookup rest k

/-! ## The data model (type block of asana.go) -/

/-- Workspace struct: ID string tagged gid, Name string tagged name,
Organization bool tagged is_organization (all omitempty). -/
structure Workspace where
  id : String
  name : String
  organization : Bool
deriving Repr, DecidableEq

/-- Zero value of Workspace. -/
def Workspace.zero : Workspace := ⟨"", "", false⟩

/-- User struct: ID string tagged gid, Email, Name, Photo
map[string]string, Workspaces []Workspace. -/
structure User where
  id : String
  email : String
  name : String
  photo : List (String × String)
  workspaces : List Workspace
deriving Repr, DecidableEq

/-- Zero value of User. -/
def User.zero : User := ⟨"", "", "", [], []⟩

/-- Project struct: ID string tagged gid, Name, Archived bool, Color,
Notes. -/
structure Project where
  id : String
  name : String
  archived : Bool
  color : String
  notes : String
deriving Repr, DecidableEq

/-- Heart struct: ID string tagged gid, User user. -/
structure Heart where
  id : String
  user : User
deriving Repr, DecidableEq

/-- Tag struct: ID string tagged gid, Name, Color, Notes. -/
structure Tag where
  id : String
  name : String
  color : String
  notes : String
deriving Repr, DecidableEq

/-- Task struct of asana.go.  ParentTask is a *Task, so the type is
recursive; time.Time CreatedAt is carried as its RFC3339 wire string,
with the empty string as the zero time. -/
inductive Task where
| mk (id : String) (assignee : Option User) (assigneeStatus : String)
    (createdAt : String) (createdBy : User) (completed : Bool)
    (name : String) (hearts : List Heart) (notes : String)
    (parentTask : Option Task) (projects : List Project)
    (dueOn : String) (dueAt : String) : Task

/-- Task.ID accessor. -/
def Task.id : Task → String
| Task.mk v _ _ _ _ _ _ _ _ _ _ _ _ => v

/-- Task.Notes accessor. -/
def Task.notes : Task → String
| Task.mk _ _ _ _ _ _ _ _ v _ _ _ _ => v

/-- Task.Name accessor. -/
def Task.name : Task → String
| Task.mk _ _ _ _ _ _ v _ _ _ _ _ _ => v

/-- Zero value of Task. -/
def Task.zero : Task :=
  Task.mk "" none "" "" User.zero false "" [] "" none [] "" ""

/-- TaskUpdate struct: Notes *string tagged notes, Hearted *bool tagged
hearted, both omitempty. -/
structure TaskUpdate where
  notes : Option String
  hearted : Option Bool
deriving Repr, DecidableEq

/-- json.Marshal of a TaskUpdate: nil pointer fields are omitted
(omitempty), fields appear in declaration order. -/
def TaskUpdate.toJson (tu : TaskUpdate) : Json :=
  Json.obj
    ((match tu.notes with
      | some s => [("notes", Json.str s)]
      | none => [])
     ++
     (match tu.hearted with
      | some b => [("hearted", Json.bool b)]
      | none => []))

/-- Error struct: Phrase and Message strings. -/
structure Error where
  phrase : String
  message : String
deriving Repr, DecidableEq

/-- Error.Error(): fmt.Sprintf of message, then a separator, then the
phrase. -/
def Error.render (e : Error) : String :=
  e.message ++ " - " ++ e.phrase

/-- Errors.Error(): each element rendered by Error.Error, joined by
strings.Join with separator comma-space. -/
def Errors.render (es : List Error) : String :=
  String.intercalate ", " (es.map Error.render)

/-- Filter struct of asana.go, with url tags archived, assignee,
project, workspace, completed_since, modified_since, opt_fields (comma),
opt_expand (comma); all omitempty.  Assignee, Project and Workspace are
strings in the current source. -/
structure Filter where
  archived : Bool
  assignee : String
  project : String
  workspace : String
  completedSince : String
  modifiedSince : String
  optFields : List String
  optExpand : List String
deriving Repr, DecidableEq

/-- The zero Filter (Go composite literal with no fields set). -/
def Filter.empty : Filter := ⟨false, "", "", "", "", "", [], []⟩

/-! ## Constants and the default field table -/

/-- libraryVersion constant. -/
def libraryVersion : String := "0.1"

/-- userAgent constant. -/
def userAgent : String := "go-asana/" ++ libraryVersion

/-- defaultBaseURL constant. -/
def defaultBaseURL : String := "https://app.asana.com/api/1.0/"

/-- defaultOptFields map; a Go map read of a missing key yields the
nil slice, here the empty list. -/
def defaultOptFields (path : String) : List String :=
  if path = "tags" then ["name", "color", "notes"]
  else if path = "users" then ["name", "email", "photo"]
  else if path = "projects" then ["name", "color", "archived"]
  else if path = "workspaces" then ["name", "is_organization"]
  else if path = "tasks" then
    ["name", "assignee", "assignee_status", "completed", "parent"]
  else []

/-! ## Query-string construction (go-querystring plus url.Values.Encode) -/

/-- Uppercase hex digit for a value below 16. -/
def hexDigitUpper (n : Nat) : Char :=
  if n < 10 then Char.ofNat (48 + n) else Char.ofNat (55 + n)

/-- Characters url.QueryEscape leaves unescaped. -/
def isUnreservedChar (c : Char) : Bool :=
  (Char.ofNat 97 ≤ c && c ≤ Char.ofNat 122) ||
  (Char.ofNat 65 ≤ c && c ≤ Char.ofNat 90) ||
  (Char.ofNat 48 ≤ c && c ≤ Char.ofNat 57) ||
  c = '-' || c = '_' || c = '.' || c = '~'

/-- url.QueryEscape of one character (space becomes plus, other reserved
characters become a percent escape; faithful for the ASCII inputs this
library sends). -/
def escapeQueryChar (c : Char) : String :=
  if isUnreservedChar c then String.singleton c
  else if c = ' ' then "+"
  else "%" ++ String.singleton (hexDigitUpper (c.toNat / 16))
      ++ String.singleton (hexDigitUpper (c.toNat % 16))

/-- url.QueryEscape. -/
def queryEscape (s : String) : String :=
  String.join (s.toList.map escapeQueryChar)

/-- query.Values on a Filter followed by the key sort performed by
url.Values.Encode: key/value pairs in sorted key order, zero-valued
fields omitted (omitempty), list fields comma-joined (the comma option
on opt_fields and opt_expand). -/
def Filter.queryValues (f : Filter) : List (String × String) :=
  (if f.archived then [("archived", "true")] else [])
  ++ (if f.assignee = "" then [] else [("assignee", f.assignee)])
  ++ (if f.completedSince = "" then []
      else [("completed_since", f.completedSince)])
  ++ (if f.modifiedSince = "" then []
      else [("modified_since", f.modifiedSince)])
  ++ (if f.optExpand = [] then []
      else [("opt_expand", String.intercalate "," f.optExpand)])
  ++ (if f.optFields = [] then []
      else [("opt_fields", String.intercalate "," f.optFields)])
  ++ (if f.project = "" then [] else [("project", f.project)])
  ++ (if f.workspace = "" then [] else [("workspace", f.workspace)])

/-- First value bound to a key in a key/value list (url.Values.Get view
of the encoded query). -/
def lookupParam (kvs : List (String × String)) (k : String) : Option String :=
  match kvs with
  | [] => none
  | (k2, v) :: rest => if k2 = k then some v else lookupParam rest k

/-- url.Values.Encode on an already-sorted key/value list: each pair
escaped and joined with ampersands. -/
def encodeQuery (kvs : List (String × String)) : String :=
  String.intercalate "&"
    (kvs.map (fun kv => queryEscape kv.1 ++ "=" ++ queryEscape kv.2))

/-- addOptions: parse the path, set RawQuery to the encoded filter and
re-render.  The paths this library builds carry no query of their own
and parse without error, so the result is the path, then a question
mark and the query when the query is nonempty. -/
def addOptions (path : String) (f : Filter) : String :=
  let q := encodeQuery f.queryValues
  if q = "" then path else path ++ "?" ++ q

/-! ## The request executor -/

/-- The filter-defaulting prologue of Client.request as a pure function:
a nil opt is replaced by a fresh zero Filter; when OptFields is empty a
copy is taken and its OptFields set to the per-path default. -/
def effectiveFilter (opt : Option Filter) (path : String) : Filter :=
  let o := opt.getD Filter.empty
  if o.optFields = [] then
    { o with optFields := defaultOptFields path }
  else o

/-- The caller's Filter cell together with the executor's local copy, to
track where pointer writes land in the defaulting prologue. -/
structure FilterHeap where
  caller : Filter
  copy : Option Filter
deriving Repr, DecidableEq

/-- Which cell the executor's opt pointer designates. -/
inductive FilterPtr where
| toCaller : FilterPtr
| toCopy : FilterPtr
deriving Repr, DecidableEq

/-- Dereference the opt pointer. -/
def FilterHeap.read (h : FilterHeap) : FilterPtr → Filter
| FilterPtr.toCaller => h.caller
| FilterPtr.toCopy => h.copy.getD h.caller

/-- The assignment opt.OptFields = fs through the opt pointer. -/
def FilterHeap.writeOptFields (h : FilterHeap) (p : FilterPtr)
    (fs : List String) : FilterHeap :=
  match p with
  | FilterPtr.toCaller =>
      { h with caller := { h.caller with optFields := fs } }
  | FilterPtr.toCopy =>
      { h with copy := some { h.read FilterPtr.toCopy with optFields := fs } }

/-- The defaulting block of Client.request, statement by statement: if
opt.OptFields is empty, newOpt receives a copy of the pointee, the opt
pointer is redirected to newOpt, and the default list is written through
the (redirected) pointer. -/
def applyDefaultsOnHeap (h : FilterHeap) (p : FilterPtr) (path : String) :
    FilterHeap × FilterPtr :=
  if (h.read p).optFields = [] then
    let h1 : FilterHeap := { h with copy := some (h.read p) }
    let p1 := FilterPtr.toCopy
    (h1.writeOptFields p1 (defaultOptFields path), p1)
  else (h, p)

/-- The body reader of the built request: JSON-marshalled data, the
encoded form, or no body at all. -/
inductive Body where
| empty : Body
| jsonOf (payload : Json) : Body
| formOf (encoded : String) : Body

/-- The bytes a Body yields when read. -/
def Body.bytes : Body → Option String
| Body.empty => none
| Body.jsonOf j => some j.render
| Body.formOf s => some s

/-- Insert a key/value pair keeping keys sorted. -/
def insertByKey (p : String × String) :
    List (String × String) → List (String × String)
| [] => [p]
| q :: qs => if p.1 ≤ q.1 then p :: q :: qs else q :: insertByKey p qs

/-- Sort a key/value list by key (url.Values.Encode sorts keys). -/
def sortByKey : List (String × String) → List (String × String)
| [] => []
| p :: ps => insertByKey p (sortByKey ps)

/-- url.Values.Encode of a form built by toURLValues: keys sorted, each
pair escaped, joined with ampersands. -/
def formEncode (form : List (String × String)) : String :=
  encodeQuery (sortByKey form)

/-- The body selection of Client.request: a non-nil data is marshalled
as a one-field envelope object under the data key (the request struct's
only field, non-nil hence not omitted); otherwise a non-nil form is
form-encoded; otherwise the body is nil. -/
def buildBody (data : Option Json)
    (form : Option (List (String × String))) : Body :=
  match data with
  | some d => Body.jsonOf (Json.obj [("data", d)])
  | none =>
      match form with
      | some f => Body.formOf (formEncode f)
      | none => Body.empty

/-- The Content-Type header set by Client.request: JSON when data is
non-nil, the form encoding when only form is non-nil, absent otherwise. -/
def contentTypeFor (data : Option Json)
    (form : Option (List (String × String))) : Option String :=
  match data with
  | some _ => some "application/json"
  | none =>
      match form with
      | some _ => some "application/x-www-form-urlencoded"
      | none => none

/-- The outgoing request assembled by Client.request (url is the
relative reference addOptions returns, which the base URL resolves
without altering path or query for the paths this library builds). -/
structure HttpRequest where
  method : String
  url : String
  contentType : Option String
  userAgentHeader : String
  body : Body

/-- The transport's answer: a status code and the response body, already
parsed as JSON when it is valid JSON (none models an unparseable body). -/
structure HttpResponse where
  status : Nat
  body : Option Json

/-- The error values Client.request can return. -/
inductive ReqError where
| transport (msg : String) : ReqError
| unauthorized : ReqError
| apiErrors (es : List Error) : ReqError
| decodeFailed : ReqError
deriving Repr, DecidableEq

/-! ## Decoding the response envelope (encoding/json on the Response
struct and the resource structs) -/

/-- A string field of a struct: a missing or null key leaves the zero
string, a string key sets it, any other type is a decode error. -/
def strField (fs : List (String × Json)) (k : String) : Option String :=
  match jsonLookup fs k with
  | none => some ""
  | some Json.null => some ""
  | some (Json.str s) => some s
  | some _ => none

/-- A bool field of a struct. -/
def boolField (fs : List (String × Json)) (k : String) : Option Bool :=
  match jsonLookup fs k with
  | none => some false
  | some Json.null => some false
  | some (Json.bool b) => some b
  | some _ => none

/-- Decode one Error object (keys phrase and message). -/
def decodeErrorObj : Json → Option Error
| Json.obj fs => do
    let phrase ← strField fs "phrase"
    let message ← strField fs "message"
    some ⟨phrase, message⟩
| Json.null => some ⟨"", ""⟩
| _ => none

/-- Decode the errors field: a missing or null key is the nil slice, an
array decodes elementwise. -/
def decodeErrorList : Json → Option (List Error)
| Json.arr es => es.mapM decodeErrorObj
| Json.null => some []
| _ => none

/-- Decode the Response envelope: the data key is handed on as raw JSON
(the executor decodes it further into the caller's target), the errors
key into the Errors slice.  A null data leaves the target untouched. -/
def decodeEnvelope : Json → Option (Option Json × List Error)
| Json.obj fs =>
    let dat :=
      match jsonLookup fs "data" with
      | some Json.null => none
      | d => d
    (match jsonLookup fs "errors" with
     | none => some (dat, [])
     | some e => (decodeErrorList e).map (fun es => (dat, es)))
| Json.null => some (none, [])
| _ => none

/-- The response half of Client.request: transport errors pass through,
status 401 short-circuits into ErrUnauthorized before any decoding, then
the body is decoded as the envelope and a nonempty Errors slice is
returned in preference to the decoded data. -/
def handleResponse (resp : Except String HttpResponse) :
    Except ReqError (Option Json) :=
  match resp with
  | Except.error m => Except.error (ReqError.transport m)
  | Except.ok r =>
      if r.status = 401 then Except.error ReqError.unauthorized
      else
        match r.body with
        | none => Except.error ReqError.decodeFailed
        | some j =>
            match decodeEnvelope j with
            | none => Except.error ReqError.decodeFailed
            | some (d, es) =>
                if es = [] then Except.ok d
                else Except.error (ReqError.apiErrors es)

/-- Client.request end to end: apply filter defaults, build the URL from
the path and the encoded filter, build body and headers, and translate
the transport's answer.  The built request is returned alongside so its
method, URL, headers and body can be inspected. -/
def runRequest (method path : String) (data : Option Json)
    (form : Option (List (String × String))) (opt : Option Filter)
    (resp : Except String HttpResponse) :
    HttpRequest × Except ReqError (Option Json) :=
  let f := effectiveFilter opt path
  let req : HttpRequest :=
    ⟨method, addOptions path f, contentTypeFor data form, userAgent,
      buildBody data form⟩
  (req, handleResponse resp)

/-- Client.UpdateTask: a PUT to tasks/<id> with the TaskUpdate as JSON
data and no form. -/
def updateTaskRequest (id : String) (tu : TaskUpdate) (opt : Option Filter)
    (resp : Except String HttpResponse) :
    HttpRequest × Except ReqError (Option Json) :=
  runRequest "PUT" ("tasks/" ++ id) (some tu.toJson) none opt resp

/-! ## Typed decoders for the resource structs -/

/-- Decode a map[string]string (the Photo field). -/
def decodeStrMap : Json → Option (List (String × String))
| Json.obj fs =>
    fs.mapM (fun kv =>
      match kv.2 with
      | Json.str s => some (kv.1, s)
      | _ => none)
| Json.null => some []
| _ => none

/-- Decode a Workspace object: ID from the gid key, Name from name,
Organization from is_organization; unknown keys (such as id) are
ignored, as encoding/json ignores keys matching no field tag. -/
def Workspace.decode : Json → Option Workspace
| Json.obj fs => do
    let id ← strField fs "gid"
    let name ← strField fs "name"
    let org ← boolField fs "is_organization"
    some ⟨id, name, org⟩
| Json.null => some Workspace.zero
| _ => none

/-- Decode a []Workspace. -/
def Workspace.decodeList : Json → Option (List Workspace)
| Json.arr es => es.mapM Workspace.decode
| Json.null => some []
| _ => none

/-- Decode a User object. -/
def User.decode : Json → Option User
| Json.obj fs => do
    let id ← strField fs "gid"
    let email ← strField fs "email"
    let name ← strField fs "name"
    let photo ←
      match jsonLookup fs "photo" with
      | none => some []
      | some j => decodeStrMap j
    let ws ←
      match jsonLookup fs "workspaces" with
      | none => some []
      | some j => Workspace.decodeList j
    some ⟨id, email, name, photo, ws⟩
| Json.null => some User.zero
| _ => none

/-- Decode a *User field: a missing or null key is the nil pointer. -/
def decodeUserPtr (fs : List (String × Json)) (k : String) :
    Option (Option User) :=
  match jsonLookup fs k with
  | none => some none
  | some Json.null => some none
  | some j => (User.decode j).map some

/-- Decode a User value field: a missing key leaves the zero User. -/
def decodeUserField (fs : List (String × Json)) (k : String) : Option User :=
  match jsonLookup fs k with
  | none => some User.zero
  | some j => User.decode j

/-- Decode a Project object. -/
def Project.decode : Json → Option Project
| Json.obj fs => do
    let id ← strField fs "gid"
    let name ← strField fs "name"
    let archived ← boolField fs "archived"
    let color ← strField fs "color"
    let notes ← strField fs "notes"
    some ⟨id, name, archived, color, notes⟩
| Json.null => some ⟨"", "", false, "", ""⟩
| _ => none

/-- Decode a Heart object. -/
def Heart.decode : Json → Option Heart
| Json.obj fs => do
    let id ← strField fs "gid"
    let user ← decodeUserField fs "user"
    some ⟨id, user⟩
| Json.null => some ⟨"", User.zero⟩
| _ => none

/-- Decode a Task object.  The parent field is a *Task, so the decoder
recurses; the fuel argument bounds the recursion depth and is
instantiated with the size of the input, which dominates its depth. -/
def Task.decodeFuel : Nat → Json → Option Task
| 0, _ => none
| _ + 1, Json.null => some Task.zero
| fuel + 1, Json.obj fs => do
    let id ← strField fs "gid"
    let assignee ← decodeUserPtr fs "assignee"
    let assigneeStatus ← strField fs "assignee_status"
    let createdAt ← strField fs "created_at"
    let createdBy ← decodeUserField fs "created_by"
    let completed ← boolField fs "completed"
    let name ← strField fs "name"
    let hearts ←
      match jsonLookup fs "hearts" with
      | none => some []
      | some Json.null => some []
      | some (Json.arr es) => es.mapM Heart.decode
      | some _ => none
    let notes ← strField fs "notes"
    let parent ←
      match jsonLookup fs "parent" with
      | none => some none
      | some Json.null => some none
      | some j => (Task.decodeFuel fuel j).map some
    let projects ←
      match jsonLookup fs "projects" with
      | none => some []
      | some Json.null => some []
      | some (Json.arr es) => es.mapM Project.decode
      | some _ => none
    let dueOn ← strField fs "due_on"
    let dueAt ← strField fs "due_at"
    some (Task.mk id assignee assigneeStatus createdAt createdBy completed
      name hearts notes parent projects dueOn dueAt)
| _ + 1, _ => none

/-- Decode a Task with enough fuel for the whole input. -/
def Task.decode (j : Json) : Option Task :=
  Task.decodeFuel j.size j

/-! ## Helper lemmas -/

theorem lookupParam_append (xs ys : List (String × String)) (k : String) :
    lookupParam (xs ++ ys) k = (lookupParam xs k <|> lookupParam ys k) := by
  induction xs with
  | nil => simp [lookupParam]
  | cons p xs ih =>
      simp only [List.cons_append, lookupParam]
      split <;> simp [ih]

theorem queryValues_optFields (f : Filter) :
    lookupParam f.queryValues "opt_fields" =
      if f.optFields = [] then none
      else some (String.intercalate "," f.optFields) := by
  unfold Filter.queryValues
  split_ifs <;> simp_all [lookupParam_append, lookupParam]

theorem queryValues_archived (f : Filter) (h : f.archived = false) :
    lookupParam f.queryValues "archived" = none := by
  unfold Filter.queryValues
  split_ifs <;> simp_all [lookupParam_append, lookupParam]

theorem queryValues_assignee (f : Filter) (h : f.assignee = "") :
    lookupParam f.queryValues "assignee" = none := by
  unfold Filter.queryValues
  split_ifs <;> simp_all [lookupParam_append, lookupParam]

theorem queryValues_project (f : Filter) (h : f.project = "") :
    lookupParam f.queryValues "project" = none := by
  unfold Filter.queryValues
  split_ifs <;> simp_all [lookupParam_append, lookupParam]

theorem queryValues_workspace (f : Filter) (h : f.workspace = "") :
    lookupParam f.queryValues "workspace" = none := by
  unfold Filter.queryValues
  split_ifs <;> simp_all [lookupParam_append, lookupParam]

theorem queryValues_completedSince (f : Filter) (h : f.completedSince = "") :
    lookupParam f.queryValues "completed_since" = none := by
  unfold Filter.queryValues
  split_ifs <;> simp_all [lookupParam_append, lookupParam]

theorem queryValues_modifiedSince (f : Filter) (h : f.modifiedSince = "") :
    lookupParam f.queryValues "modified_since" = none := by
  unfold Filter.queryValues
  split_ifs <;> simp_all [lookupParam_append, lookupParam]

theorem queryValues_optExpand (f : Filter) (h : f.optExpand = []) :
    lookupParam f.queryValues "opt_expand" = none := by
  unfold Filter.queryValues
  split_ifs <;> simp_all [lookupParam_append, lookupParam]

theorem effectiveFilter_optFields (opt : Option Filter) (path : String)
    (h : (opt.getD Filter.empty).optFields = []) :
    (effectiveFilter opt path).optFields = defaultOptFields path := by
  unfold effectiveFilter
  simp [h]

theorem handleResponse_apiErrors (status : Nat) (j : Json) (d : Option Json)
    (es : List Error) (hstatus : status ≠ 401)
    (hdec : decodeEnvelope j = some (d, es)) (hne : es ≠ []) :
    handleResponse (Except.ok ⟨status, some j⟩) =
      Except.error (ReqError.apiErrors es) := by
  simp [handleResponse, hstatus, hdec, hne]

/-! ## The claims -/

/-- Claim C1: when the filter's field-selection list is empty (also when
the filter is nil), the effective opt_fields equals the hardcoded
per-resource default for that exact path string; the table contains
exactly the five resource keys with their lists; a path that is not an
exact key (such as tasks/1) gets the empty default and the built query
carries no opt_fields parameter. -/
theorem claim1_default_opt_fields (opt : Option Filter) (path : String)
    (h : (opt.getD Filter.empty).optFields = []) :
    (effectiveFilter opt path).optFields = defaultOptFields path ∧
    defaultOptFields "tags" = ["name", "color", "notes"] ∧
    defaultOptFields "users" = ["name", "email", "photo"] ∧
    defaultOptFields "projects" = ["name", "color", "archived"] ∧
    defaultOptFields "workspaces" = ["name", "is_organization"] ∧
    defaultOptFields "tasks" =
      ["name", "assignee", "assignee_status", "completed", "parent"] ∧
    defaultOptFields "tasks/1" = [] ∧
    (path ∉ (["tags", "users", "projects", "workspaces", "tasks"] :
        List String) →
      defaultOptFields path = [] ∧
      lookupParam (effectiveFilter opt path).queryValues "opt_fields" =
        none) := by
  refine ⟨effectiveFilter_optFields opt path h, by decide, by decide,
    by decide, by decide, by decide, by decide, fun hp => ?_⟩
  have hd : defaultOptFields path = [] := by
    simp only [List.mem_cons, List.mem_singleton, not_or] at hp
    unfold defaultOptFields
    split_ifs <;> simp_all
  refine ⟨hd, ?_⟩
  have he : (effectiveFilter opt path).optFields = [] :=
    (effectiveFilter_optFields opt path h).trans hd
  rw [queryValues_optFields, if_pos he]

theorem claim1_witness :
    ((some Filter.empty).getD Filter.empty).optFields = ([] : List String) ∧
    ((effectiveFilter (some Filter.empty) "tags").optFields =
        defaultOptFields "tags" ∧
      defaultOptFields "tags" = ["name", "color", "notes"] ∧
      defaultOptFields "users" = ["name", "email", "photo"] ∧
      defaultOptFields "projects" = ["name", "color", "archived"] ∧
      defaultOptFields "workspaces" = ["name", "is_organization"] ∧
      defaultOptFields "tasks" =
        ["name", "assignee", "assignee_status", "completed", "parent"] ∧
      defaultOptFields "tasks/1" = [] ∧
      ("tags" ∉ (["tags", "users", "projects", "workspaces", "tasks"] :
          List String) →
        defaultOptFields "tags" = [] ∧
        lookupParam (effectiveFilter (some Filter.empty) "tags").queryValues
          "opt_fields" = none)) :=
  ⟨rfl, claim1_default_opt_fields (some Filter.empty) "tags" rfl⟩

/-- Claim C5: running the defaulting prologue on the caller's filter
cell leaves that cell unchanged for every filter, empty field selection
or not; the filter the executor goes on to use is the effective filter
(the defensive copy with defaults applied). -/
theorem claim5_caller_filter_unchanged (f : Filter) (path : String) :
    ((applyDefaultsOnHeap ⟨f, none⟩ FilterPtr.toCaller path).1).caller = f ∧
    (applyDefaultsOnHeap ⟨f, none⟩ FilterPtr.toCaller path).1.read
        (applyDefaultsOnHeap ⟨f, none⟩ FilterPtr.toCaller path).2 =
      effectiveFilter (some f) path := by
  by_cases h : f.optFields = [] <;>
    simp [applyDefaultsOnHeap, FilterHeap.read, FilterHeap.writeOptFields,
      effectiveFilter, h]

/-- Claim C6: a filter with a non-empty field-selection list is used as
given (no default substitution), its opt_fields query parameter is the
caller's list comma-joined, and each zero-valued filter field is absent
from the query. -/
theorem claim6_no_default_substitution (f : Filter) (path : String)
    (h : f.optFields ≠ []) :
    effectiveFilter (some f) path = f ∧
    lookupParam (effectiveFilter (some f) path).queryValues "opt_fields" =
      some (String.intercalate "," f.optFields) ∧
    (f.archived = false → lookupParam f.queryValues "archived" = none) ∧
    (f.assignee = "" → lookupParam f.queryValues "assignee" = none) ∧
    (f.project = "" → lookupParam f.queryValues "project" = none) ∧
    (f.workspace = "" → lookupParam f.queryValues "workspace" = none) ∧
    (f.completedSince = "" →
      lookupParam f.queryValues "completed_since" = none) ∧
    (f.modifiedSince = "" →
      lookupParam f.queryValues "modified_since" = none) ∧
    (f.optExpand = [] → lookupParam f.queryValues "opt_expand" = none) := by
  have heff : effectiveFilter (some f) path = f := by
    unfold effectiveFilter
    simp [h]
  refine ⟨heff, ?_, queryValues_archived f, queryValues_assignee f,
    queryValues_project f, queryValues_workspace f,
    queryValues_completedSince f, queryValues_modifiedSince f,
    queryValues_optExpand f⟩
  rw [heff, queryValues_optFields, if_neg h]

theorem claim6_witness :
    (Filter.mk false "" "" "" "" "" ["name"] []).optFields ≠ [] ∧
    (effectiveFilter (some (Filter.mk false "" "" "" "" "" ["name"] []))
        "tasks" = Filter.mk false "" "" "" "" "" ["name"] [] ∧
      lookupParam (effectiveFilter
          (some (Filter.mk false "" "" "" "" "" ["name"] []))
          "tasks").queryValues "opt_fields" =
        some (String.intercalate ","
          (Filter.mk false "" "" "" "" "" ["name"] []).optFields) ∧
      ((Filter.mk false "" "" "" "" "" ["name"] []).archived = false →
        lookupParam (Filter.mk false "" "" "" "" "" ["name"] []).queryValues
          "archived" = none) ∧
      ((Filter.mk false "" "" "" "" "" ["name"] []).assignee = "" →
        lookupParam (Filter.mk false "" "" "" "" "" ["name"] []).queryValues
          "assignee" = none) ∧
      ((Filter.mk false "" "" "" "" "" ["name"] []).project = "" →
        lookupParam (Filter.mk false "" "" "" "" "" ["name"] []).queryValues
          "project" = none) ∧
      ((Filter.mk false "" "" "" "" "" ["name"] []).workspace = "" →
        lookupParam (Filter.mk false "" "" "" "" "" ["name"] []).queryValues
          "workspace" = none) ∧
      ((Filter.mk false "" "" "" "" "" ["name"] []).completedSince = "" →
        lookupParam (Filter.mk false "" "" "" "" "" ["name"] []).queryValues
          "completed_since" = none) ∧
      ((Filter.mk false "" "" "" "" "" ["name"] []).modifiedSince = "" →
        lookupParam (Filter.mk false "" "" "" "" "" ["name"] []).queryValues
          "modified_since" = none) ∧
      ((Filter.mk false "" "" "" "" "" ["name"] []).optExpand = [] →
        lookupParam (Filter.mk false "" "" "" "" "" ["name"] []).queryValues
          "opt_expand" = none)) :=
  ⟨by decide,
    claim6_no_default_substitution (Filter.mk false "" "" "" "" "" ["name"] [])
      "tasks" (by decide)⟩

/-- Claim C10: a nil filter behaves exactly like a pointer to a zero
Filter: the whole executor run (built request and result) is equal for
every method, path, body, form and response, and the nil filter still
receives the per-path default field selection. -/
theorem claim10_nil_filter_like_zero (method path : String)
    (data : Option Json) (form : Option (List (String × String)))
    (resp : Except String HttpResponse) :
    runRequest method path data form none resp =
      runRequest method path data form (some Filter.empty) resp ∧
    (effectiveFilter none path).optFields = defaultOptFields path :=
  ⟨rfl, by simp [effectiveFilter, Filter.empty]⟩

/-- Claim C2: whenever the transported response (with a status other
than the unauthorized one) decodes to an envelope with a nonempty errors
list, the executor returns that list as the error, even though decoding
succeeded and a data payload may be present. -/
theorem claim2_errors_take_precedence (method path : String)
    (data : Option Json) (form : Option (List (String × String)))
    (opt : Option Filter) (status : Nat) (j : Json) (d : Option Json)
    (es : List Error) (hstatus : status ≠ 401)
    (hdec : decodeEnvelope j = some (d, es)) (hne : es ≠ []) :
    (runRequest method path data form opt
        (Except.ok ⟨status, some j⟩)).2 =
      Except.error (ReqError.apiErrors es) :=
  handleResponse_apiErrors status j d es hstatus hdec hne

/-- Response body used to exercise claim C2: a data payload and one
error are both present. -/
def claim2Body : Json :=
  Json.obj
    [("data", Json.str "payload"),
     ("errors", Json.arr
       [Json.obj [("phrase", Json.str "p"), ("message", Json.str "m")]])]

theorem claim2_witness :
    (200 : Nat) ≠ 401 ∧
    decodeEnvelope claim2Body =
      some (some (Json.str "payload"), [⟨"p", "m"⟩]) ∧
    ([(⟨"p", "m"⟩ : Error)] ≠ ([] : List Error)) ∧
    (runRequest "GET" "tasks" none none none
        (Except.ok ⟨200, some claim2Body⟩)).2 =
      Except.error (ReqError.apiErrors [⟨"p", "m"⟩]) :=
  ⟨by decide, rfl, by simp,
    claim2_errors_take_precedence "GET" "tasks" none none none 200
      claim2Body (some (Json.str "payload")) [⟨"p", "m"⟩] (by decide) rfl
      (by simp)⟩

/-- Claim C3: a response with status 401 makes the executor return the
distinguished unauthorized error for every body, parseable or not
(decoding is never reached), the result is never a populated target, and
the unauthorized error is distinct from every other error constructor
without any string matching. -/
theorem claim3_unauthorized_short_circuit (method path : String)
    (data : Option Json) (form : Option (List (String × String)))
    (opt : Option Filter) (body : Option Json) :
    (runRequest method path data form opt
        (Except.ok ⟨401, body⟩)).2 = Except.error ReqError.unauthorized ∧
    (∀ d, (runRequest method path data form opt
        (Except.ok ⟨401, body⟩)).2 ≠ Except.ok d) ∧
    (∀ es, ReqError.unauthorized ≠ ReqError.apiErrors es) ∧
    ReqError.unauthorized ≠ ReqError.decodeFailed ∧
    (∀ m, ReqError.unauthorized ≠ ReqError.transport m) := by
  refine ⟨by simp [runRequest, handleResponse], ?_, ?_, ?_, ?_⟩
  · intro d
    simp [runRequest, handleResponse]
  · intro es hcontra
    cases hcontra
  · intro hcontra
    cases hcontra
  · intro m hcontra
    cases hcontra

/-- Claim C4: when both a JSON data body and form data are supplied, the
built request carries the JSON content type, its body is the JSON
serialization of the data wrapped under the single data key, and the
form encoding is absent from the body. -/
theorem claim4_data_over_form (method path : String) (d : Json)
    (form : List (String × String)) (opt : Option Filter)
    (resp : Except String HttpResponse) :
    ((runRequest method path (some d) (some form) opt resp).1).contentType =
      some "application/json" ∧
    ((runRequest method path (some d) (some form) opt resp).1).body =
      Body.jsonOf (Json.obj [("data", d)]) ∧
    ((runRequest method path (some d) (some form) opt resp).1).body.bytes =
      some (Json.obj [("data", d)]).render ∧
    ∀ s, ((runRequest method path (some d) (some form) opt resp).1).body ≠
      Body.formOf s := by
  refine ⟨rfl, rfl, rfl, fun s hcontra => ?_⟩
  simp [runRequest, buildBody] at hcontra

/-- Claim C7: a single Error renders as its message, a separator, and
its phrase; an Errors list renders as the comma-space join of the
individual renderings (a singleton list rendering exactly like its one
element); and every error returned from an envelope with a nonempty
errors list is such a list, regardless of a data payload being present. -/
theorem claim7_error_rendering (e e2 : Error) (method path : String)
    (data : Option Json) (form : Option (List (String × String)))
    (opt : Option Filter) (status : Nat) (j : Json) (d : Option Json)
    (es : List Error) (hstatus : status ≠ 401)
    (hdec : decodeEnvelope j = some (d, es)) (hne : es ≠ []) :
    Error.render e = e.message ++ " - " ++ e.phrase ∧
    Errors.render [e] = e.message ++ " - " ++ e.phrase ∧
    Errors.render [e, e2] =
      Error.render e ++ ", " ++ Error.render e2 ∧
    ∃ errs, errs ≠ [] ∧
      (runRequest method path data form opt
          (Except.ok ⟨status, some j⟩)).2 =
        Except.error (ReqError.apiErrors errs) ∧
      Errors.render errs =
        String.intercalate ", " (errs.map Error.render) := by
  refine ⟨rfl, ?_, ?_, es, hne,
    handleResponse_apiErrors status j d es hstatus hdec hne, rfl⟩
  · simp [Errors.render, Error.render, String.intercalate,
      String.intercalate.go]
  · simp [Errors.render, Error.render, String.intercalate,
      String.intercalate.go]

theorem claim7_witness :
    (200 : Nat) ≠ 401 ∧
    decodeEnvelope (Json.obj
        [("errors", Json.arr
          [Json.obj [("phrase", Json.str "p1"), ("message", Json.str "m1")],
           Json.obj [("phrase", Json.str "p2"),
             ("message", Json.str "m2")]])]) =
      some (none, [⟨"p1", "m1"⟩, ⟨"p2", "m2"⟩]) ∧
    ([(⟨"p1", "m1"⟩ : Error), ⟨"p2", "m2"⟩] ≠ ([] : List Error)) ∧
    (Error.render ⟨"p1", "m1"⟩ = "m1" ++ " - " ++ "p1" ∧
      Errors.render [⟨"p1", "m1"⟩] = "m1" ++ " - " ++ "p1" ∧
      Errors.render [⟨"p1", "m1"⟩, ⟨"p2", "m2"⟩] =
        Error.render ⟨"p1", "m1"⟩ ++ ", " ++ Error.render ⟨"p2", "m2"⟩ ∧
      ∃ errs, errs ≠ [] ∧
        (runRequest "GET" "tasks" none none none
            (Except.ok ⟨200, some (Json.obj
              [("errors", Json.arr
                [Json.obj [("phrase", Json.str "p1"),
                  ("message", Json.str "m1")],
                 Json.obj [("phrase", Json.str "p2"),
                   ("message", Json.str "m2")]])])⟩)).2 =
          Except.error (ReqError.apiErrors errs) ∧
        Errors.render errs =
          String.intercalate ", " (errs.map Error.render)) :=
  ⟨by decide, rfl, by simp,
    claim7_error_rendering ⟨"p1", "m1"⟩ ⟨"p2", "m2"⟩ "GET" "tasks" none none
      none 200 _ none [⟨"p1", "m1"⟩, ⟨"p2", "m2"⟩] (by decide) rfl (by simp)⟩

/-- The workspace-list response body of the repository's
TestListWorkspaces: records keyed by id, not gid. -/
def claim8Data : Json :=
  Json.arr
    [Json.obj [("id", Json.num 1), ("name", Json.str "Organization 1")],
     Json.obj [("id", Json.num 2), ("name", Json.str "Organization 2")]]

/-- The envelope around claim8Data. -/
def claim8Body : Json := Json.obj [("data", claim8Data)]

/-- Claim C8, evaluated on the code at the claim's input: the envelope
decodes cleanly into the two-element list, both records carry the given
names, but both identifiers come out at the zero value, because the
Workspace struct reads its ID from the gid key and the body's id keys
match no field.  The claim (and the repository's own TestListWorkspaces)
expects identifiers 1 and 2. -/
theorem claim8_ids_left_at_zero :
    decodeEnvelope claim8Body = some (some claim8Data, []) ∧
    Workspace.decodeList claim8Data =
      some [⟨"", "Organization 1", false⟩, ⟨"", "Organization 2", false⟩] ∧
    ((Workspace.decodeList claim8Data).getD []).map Workspace.name =
      ["Organization 1", "Organization 2"] ∧
    ((Workspace.decodeList claim8Data).getD []).map Workspace.id =
      ["", ""] :=
  ⟨rfl, rfl, rfl, rfl⟩

/-- The TaskUpdate sent by the repository's TestUpdateTask. -/
def claim9Update : TaskUpdate := ⟨some "updated notes", none⟩

/-- The task object of the TestUpdateTask response body, keyed by id,
not gid. -/
def claim9RespData : Json :=
  Json.obj [("id", Json.num 1), ("notes", Json.str "updated notes")]

/-- The envelope around claim9RespData. -/
def claim9RespBody : Json := Json.obj [("data", claim9RespData)]

/-- Claim C9, evaluated on the code at the claim's input: the built
request is a PUT to tasks/1 with the JSON content type and exactly the
claimed body, and the response envelope decodes into a task carrying the
updated notes — but the task's identifier comes out at the zero value,
because the Task struct reads its ID from the gid key and the body's id
key matches no field.  The claim (and the repository's own
TestUpdateTask) expects the identifier 1. -/
theorem claim9_update_task_request_ok_id_zero :
    (updateTaskRequest "1" claim9Update none
        (Except.ok ⟨200, some claim9RespBody⟩)).1.method = "PUT" ∧
    (updateTaskRequest "1" claim9Update none
        (Except.ok ⟨200, some claim9RespBody⟩)).1.url = "tasks/1" ∧
    (updateTaskRequest "1" claim9Update none
        (Except.ok ⟨200, some claim9RespBody⟩)).1.contentType =
      some "application/json" ∧
    (updateTaskRequest "1" claim9Update none
        (Except.ok ⟨200, some claim9RespBody⟩)).1.body.bytes =
      some "\x7b\"data\":\x7b\"notes\":\"updated notes\"\x7d\x7d" ∧
    (updateTaskRequest "1" claim9Update none
        (Except.ok ⟨200, some claim9RespBody⟩)).2 =
      Except.ok (some claim9RespData) ∧
    Task.decode claim9RespData =
      some (Task.mk "" none "" "" User.zero false "" [] "updated notes"
        none [] "" "") ∧
    (Task.decode claim9RespData).map Task.notes = some "updated notes" ∧
    (Task.decode claim9RespData).map Task.id = some "" :=
  ⟨rfl, rfl, rfl, rfl, rfl, rfl, rfl, rfl⟩

end Asana
